import Mathlib

/-!
# Verification of the whobuiltmyroad road-record service

Shallow embedding of the moderation-gated road-record lifecycle from
`app/routers/roads.py`, `app/routers/admin.py`, `app/schemas.py`,
`app/models.py` and `import_indian_roads.py`.

Conventions of the embedding:
* MongoDB document ids (`_id`, valid BSON ObjectIds) are embedded as `Nat`;
  the `ObjectId.is_valid` string-format pre-check that rejects malformed id
  strings with HTTP 400 sits outside this id space and is not modelled.
* Python floats carry only coordinate values here and are never combined
  arithmetically, only compared and copied, so they are embedded as `ℚ`.
* Python truthiness is modelled explicitly where the source relies on it
  (`all([...])` over optional floats, `road.get("geometry")` on an optional
  dict, string truthiness of `osm_way_id`).
* The collections `db.roads` / `db.feedback` are association
  lists in cursor (insertion) order; `find_one({"_id": id})` is `List.find?`
  on the key, `delete_one({"_id": id})` / `delete_many` remove the matching
  entries (`_id` is unique in MongoDB, so removing every entry with the key
  removes exactly the one document).
* Handlers are state-passing functions `DB → ... → DB × Except HErr α`:
  a raised `HTTPException(code, detail)` is `.error (.http code detail)`,
  and a Python `AttributeError` (access to a field a pydantic v2 model does
  not declare) is `.error (.attributeError field)`.
-/

/-- A GeoJSON geometry value as stored in a road document or emitted by the
map endpoint: either a `Point` with one `[lng, lat]` coordinate pair or a
`LineString` with an ordered list of `[lng, lat]` pairs. -/
inductive Geometry where
  | point (coordinates : ℚ × ℚ)
  | lineString (coordinates : List (ℚ × ℚ))
deriving DecidableEq

/-- A road document as stored in `db.roads` (`models.py` `RoadInDB`,
and the dict literals built in `roads.py` and `import_indian_roads.py`).
`location` is the GeoJSON point's `coordinates` pair `(lng, lat)`;
timestamps are abstract instants (`Nat`). `extra_fields` is the schemaless
bag, embedded as a string-keyed association list. -/
structure Road where
  road_name : String
  location : ℚ × ℚ
  contractor : String
  approved_by : String
  total_cost : String
  promised_completion_date : String
  actual_completion_date : String
  maintenance_firm : String
  status : String
  images : List String
  added_by_user : String
  approved : Bool
  extra_fields : List (String × String)
  created_at : Nat
  updated_at : Nat
  osm_way_id : Option String
  geometry : Option Geometry
  has_osm_data : Bool
deriving DecidableEq

/-- A feedback document as stored in `db.feedback` (`models.py`
`FeedbackInDB`, and the dict literal in `roads.py` `add_feedback`). -/
structure Feedback where
  road_id : Nat
  user : String
  comment : String
  date : Nat
deriving DecidableEq

/-- The backing store: the `roads` collection (id ↦ document, in cursor
order) and the `feedback` collection. -/
structure DB where
  roads : List (Nat × Road)
  feedback : List Feedback
deriving DecidableEq

/-- Errors surfaced by a handler: `http code detail` embeds
`HTTPException(status_code=code, detail=detail)`; `attributeError f` embeds
the Python `AttributeError` raised when the handler reads attribute `f`
from a pydantic v2 model that does not declare a field `f`. -/
inductive HErr where
  | http (code : Nat) (detail : String)
  | attributeError (field : String)
deriving DecidableEq

instance {ε α : Type} [DecidableEq ε] [DecidableEq α] : DecidableEq (Except ε α) :=
  fun x y =>
    match x, y with
    | .error e, .error f =>
      if h : e = f then isTrue (by rw [h]) else isFalse (fun hh => h (Except.error.inj hh))
    | .error _, .ok _ => isFalse (fun hh => Except.noConfusion hh)
    | .ok _, .error _ => isFalse (fun hh => Except.noConfusion hh)
    | .ok a, .ok b =>
      if h : a = b then isTrue (by rw [h]) else isFalse (fun hh => h (Except.ok.inj hh))

/-- `db.roads.find_one({"_id": road_id})`: first document with the id. -/
def DB.findRoad (db : DB) (road_id : Nat) : Option Road :=
  (db.roads.find? (fun p => p.1 == road_id)).map (fun p => p.2)

/-- `db.roads.find_one({"_id": road_id, "approved": True})`: first document
with the id among approved documents. -/
def DB.findApprovedRoad (db : DB) (road_id : Nat) : Option Road :=
  (db.roads.find? (fun p => p.1 == road_id && p.2.approved)).map (fun p => p.2)

/-- `admin.py` `approve_road` (lines 75-128): 404 when the id matches no
document, 400 "Road is already approved" when the document is already
approved (raised before any write), otherwise set `approved=True` and bump
`updated_at`. -/
def approve_road (db : DB) (road_id : Nat) (now : Nat) : DB × Except HErr Road :=
  match db.findRoad road_id with
  | none => (db, .error (.http 404 "Road not found"))
  | some road =>
    if road.approved then
      (db, .error (.http 400 "Road is already approved"))
    else
      let road2 := { road with approved := true, updated_at := now }
      ({ db with
          roads := db.roads.map (fun p => if p.1 == road_id then (p.1, road2) else p) },
       .ok road2)

/-- `admin.py` `reject_road` (lines 133-179): 404 when the id matches no
document; otherwise attempt to delete each image (each failure swallowed by
`try/except: pass`), delete the road document, and delete every feedback
document with that `road_id`. `deleteFails url = true` models
`r2_storage.delete_file(url)` raising; the returned list is the set of
images whose deletion succeeded. -/
def reject_road (db : DB) (road_id : Nat) (deleteFails : String → Bool) :
    DB × Except HErr (List String) :=
  match db.findRoad road_id with
  | none => (db, .error (.http 404 "Road not found"))
  | some road =>
    let deletedImages := road.images.filter (fun url => !deleteFails url)
    ({ roads := db.roads.filter (fun p => !(p.1 == road_id)),
       feedback := db.feedback.filter (fun f => !(f.road_id == road_id)) },
     .ok deletedImages)

/-- `schemas.py` `LocationInput` (lines 56-58): a validated submission
point, `lat ∈ [-90, 90]`, `lng ∈ [-180, 180]`. -/
structure LocationInput where
  lat : ℚ
  lng : ℚ
deriving DecidableEq

/-- `schemas.py` `RoadCreate` (lines 61-78): the validated body of
`POST /roads`. Note that the shipped schema declares **no** `osm_way_id`
and **no** `geometry` field; pydantic v2 with the default
`extra="ignore"` config silently drops those keys from the request body
during validation, and any later attribute access to them on the model
raises `AttributeError`. -/
structure RoadCreate where
  road_name : String
  location : LocationInput
  contractor : String
  approved_by : String
  total_cost : String
  promised_completion_date : String
  actual_completion_date : String
  maintenance_firm : String
  status : String
  extra_fields : List (String × String)
deriving DecidableEq

/-- `schemas.py` `RoadUpdate` (lines 81-98): the validated body of
`PUT /roads/{id}`; every declared field optional. As with `RoadCreate`,
the shipped schema declares no `osm_way_id` and no `geometry` field. -/
structure RoadUpdate where
  road_name : Option String
  location : Option LocationInput
  contractor : Option String
  approved_by : Option String
  total_cost : Option String
  promised_completion_date : Option String
  actual_completion_date : Option String
  maintenance_firm : Option String
  status : Option String
  extra_fields : Option (List (String × String))
deriving DecidableEq

/-- The all-`none` update body (`PUT /roads/{id}` with body `{}`). -/
def emptyRoadUpdate : RoadUpdate :=
  { road_name := none, location := none, contractor := none, approved_by := none,
    total_cost := none, promised_completion_date := none,
    actual_completion_date := none, maintenance_firm := none,
    status := none, extra_fields := none }

/-- Python truthiness of an optional string (`osm_way_id`): `None` and the
empty string are falsy. -/
def optStrTruthy : Option String → Bool
  | none => false
  | some s => !(s == "")

/-- `roads.py` `create_road` lines 344-357 (the OSM reconciliation block),
as it would execute with the attribute values `osm_way_id` / `geometry` of
the request in hand and `fetch` standing for
`overpass.get_way_by_id` (returns the way's LineString, or `none` when the
Overpass result has no elements). Returns the `(geometry, has_osm_data)`
pair stored in the new document. Under the shipped `RoadCreate` schema this
block is dead code: line 345 raises `AttributeError` first (see
`create_road` below). -/
def reconcileOsm (osm_way_id : Option String) (geometry : Option Geometry)
    (fetch : String → Option Geometry) : Option Geometry × Bool :=
  if optStrTruthy osm_way_id && !geometry.isSome then
    match osm_way_id with
    | some wid =>
      match fetch wid with
      | some g => (some g, true)
      | none => (geometry, false)
    | none => (geometry, false)
  else if optStrTruthy osm_way_id && geometry.isSome then
    (geometry, true)
  else
    (geometry, false)

/-- `roads.py` `create_road` lines 359-382: the road document inserted once
`osm_way_id`/`geometry`/`has_osm_data` have been resolved. The submission
point `(lat, lng)` is stored as GeoJSON coordinates `(lng, lat)`;
`approved` is hard-coded `False` (pending approval). Dead code under the
shipped `RoadCreate` schema, kept as the translation of the source. -/
def createRoadDoc (road_data : RoadCreate) (current_user : String)
    (osm_way_id : Option String) (geometry : Option Geometry)
    (has_osm_data : Bool) (now : Nat) : Road :=
  { road_name := road_data.road_name,
    location := (road_data.location.lng, road_data.location.lat),
    contractor := road_data.contractor,
    approved_by := road_data.approved_by,
    total_cost := road_data.total_cost,
    promised_completion_date := road_data.promised_completion_date,
    actual_completion_date := road_data.actual_completion_date,
    maintenance_firm := road_data.maintenance_firm,
    status := road_data.status,
    images := [],
    added_by_user := current_user,
    approved := false,
    extra_fields := road_data.extra_fields,
    created_at := now,
    updated_at := now,
    osm_way_id := osm_way_id,
    geometry := geometry,
    has_osm_data := has_osm_data }

/-- `roads.py` `create_road` (lines 331-394). Its first statement past
`get_database()` is line 345, `geometry = road_data.geometry`; the shipped
`RoadCreate` schema (`schemas.py` lines 61-78) declares no `geometry`
field, so the pydantic v2 model raises
`AttributeError("'RoadCreate' object has no attribute 'geometry'")`
on every request, before any document is built or inserted (FastAPI maps
the exception to a 500 response). The intended continuation is
`reconcileOsm` followed by inserting `createRoadDoc`. -/
def create_road (db : DB) (_road_data : RoadCreate) (_current_user : String)
    (_fetch : String → Option Geometry) (_now : Nat) : DB × Except HErr Nat :=
  (db, .error (.attributeError "geometry"))

/-- `roads.py` `update_road` lines 427-483, the `$set` document: the
provided fields of the update body, plus whichever of
`osm_way_id`/`geometry`/`has_osm_data` the (dead) OSM branch adds, plus the
unconditional `approved := false` (line 477) and `updated_at := now`
(line 478), applied over the existing document. -/
structure UpdateFields where
  road_name : Option String
  location : Option (ℚ × ℚ)
  contractor : Option String
  approved_by : Option String
  total_cost : Option String
  promised_completion_date : Option String
  actual_completion_date : Option String
  maintenance_firm : Option String
  status : Option String
  extra_fields : Option (List (String × String))
  osm_way_id : Option String
  geometry : Option Geometry
  has_osm_data : Option Bool
deriving DecidableEq

/-- `roads.py` `update_road` lines 481-484 together with lines 476-478:
`update_one({"_id": id}, {"$set": update_fields})` where `update_fields`
always carries `approved: False` and `updated_at: now`. Dead code under the
shipped `RoadUpdate` schema, kept as the translation of the source. -/
def applyUpdateFields (road : Road) (uf : UpdateFields) (now : Nat) : Road :=
  { road_name := uf.road_name.getD road.road_name,
    location := uf.location.getD road.location,
    contractor := uf.contractor.getD road.contractor,
    approved_by := uf.approved_by.getD road.approved_by,
    total_cost := uf.total_cost.getD road.total_cost,
    promised_completion_date :=
      uf.promised_completion_date.getD road.promised_completion_date,
    actual_completion_date :=
      uf.actual_completion_date.getD road.actual_completion_date,
    maintenance_firm := uf.maintenance_firm.getD road.maintenance_firm,
    status := uf.status.getD road.status,
    images := road.images,
    added_by_user := road.added_by_user,
    approved := false,
    extra_fields := uf.extra_fields.getD road.extra_fields,
    created_at := road.created_at,
    updated_at := now,
    osm_way_id := uf.osm_way_id.orElse (fun _ => road.osm_way_id),
    geometry := uf.geometry.orElse (fun _ => road.geometry),
    has_osm_data := (uf.has_osm_data.getD road.has_osm_data) }

/-- `roads.py` `update_road` (lines 399-493). After the
`find_one({"_id": road_id})` existence check (line 420, 404 on a missing
id), lines 428-451 build `update_fields` from the ten fields `RoadUpdate`
declares (these attribute reads succeed), and line 454 then reads
`road_data.osm_way_id`; the shipped `RoadUpdate` schema (`schemas.py`
lines 81-98) declares no `osm_way_id` field, so the model raises
`AttributeError` on every request that reaches it — before the
`if not update_fields` emptiness check (line 470) and before the
`update_one` write (line 481). No update ever modifies a document. -/
def update_road (db : DB) (road_id : Nat) (_road_data : RoadUpdate) (_now : Nat) :
    DB × Except HErr Nat :=
  match db.findRoad road_id with
  | none => (db, .error (.http 404 "Road not found"))
  | some _road => (db, .error (.attributeError "osm_way_id"))

/-- A GeoJSON feature as built by `roads.py` `get_roads_geojson`
(lines 152-165): the selected geometry plus exactly the eight `properties`
keys the source writes — `id`, `road_name`, `contractor`, `status`,
`total_cost`, `has_info`, `has_osm_data`, `osm_way_id`. There is no
`location` key among the properties. -/
structure GeoJSONFeature where
  geometry : Geometry
  props_id : Nat
  props_road_name : String
  props_contractor : String
  props_status : String
  props_total_cost : String
  props_has_info : Bool
  props_has_osm_data : Bool
  props_osm_way_id : Option String
deriving DecidableEq

/-- `roads.py` `get_roads_geojson` lines 138-166, one loop iteration:
`has_osm = road.get("has_osm_data", False) and road.get("geometry")`
(truthy iff the flag is set and a geometry dict is present); if truthy the
stored geometry is emitted, otherwise a `Point` with the road's stored
`location.coordinates`. -/
def roadToFeature (road_id : Nat) (road : Road) : GeoJSONFeature :=
  let has_osm : Bool := road.has_osm_data && road.geometry.isSome
  { geometry :=
      if has_osm then road.geometry.getD (.point road.location)
      else .point road.location,
    props_id := road_id,
    props_road_name := road.road_name,
    props_contractor := road.contractor,
    props_status := road.status,
    props_total_cost := road.total_cost,
    props_has_info := true,
    props_has_osm_data := has_osm,
    props_osm_way_id := road.osm_way_id }

/-- The point submission `location` of a road can appear in an emitted
feature only through its geometry slot: the `properties` dict written by
the source (see `GeoJSONFeature`) has no location key. So a feature
carries the road's point location exactly when its geometry is that
point. -/
def featureCarriesPointLocation (f : GeoJSONFeature) (location : ℚ × ℚ) : Prop :=
  f.geometry = .point location

/-- Python truthiness of an optional float bound as tested by
`all([min_lat, max_lat, min_lng, max_lng])` (`roads.py` line 122):
`None` and `0.0` are falsy. -/
def optRatTruthy : Option ℚ → Bool
  | none => false
  | some v => !(v == 0)

/-- `roads.py` line 122: the bounding-box filter is attached to the query
only when all four optional bounds are truthy. -/
def boundsTruthy (min_lat max_lat min_lng max_lng : Option ℚ) : Bool :=
  optRatTruthy min_lat && optRatTruthy max_lat &&
  optRatTruthy min_lng && optRatTruthy max_lng

/-- The `$geoWithin`/`$box` containment test of `roads.py` lines 124-131
on a stored point `(lng, lat)`: inside the rectangle spanned by the
bottom-left `(min_lng, min_lat)` and top-right `(max_lng, max_lat)`
corners, boundary inclusive. -/
def inBox (min_lng min_lat max_lng max_lat : ℚ) (location : ℚ × ℚ) : Bool :=
  decide (min_lng ≤ location.1) && decide (location.1 ≤ max_lng) &&
  decide (min_lat ≤ location.2) && decide (location.2 ≤ max_lat)

/-- The per-document predicate of the Mongo query built by
`get_roads_geojson` lines 119-131: `approved: True`, plus the box filter
when all four bounds are truthy. -/
def roadMatchesMapQuery (min_lat max_lat min_lng max_lng : Option ℚ)
    (road : Road) : Bool :=
  road.approved &&
  (if boundsTruthy min_lat max_lat min_lng max_lng then
     inBox (min_lng.getD 0) (min_lat.getD 0) (max_lng.getD 0) (max_lat.getD 0)
       road.location
   else true)

/-- `get_roads_geojson` lines 114-135: cap `limit` at 5000, then
`db.roads.find(query).limit(limit)` — the documents matching the query, in
cursor order, truncated to the (capped) limit. -/
def mapQuerySelect (db : DB) (min_lat max_lat min_lng max_lng : Option ℚ)
    (limit : Nat) : List (Nat × Road) :=
  let limit := if 5000 < limit then 5000 else limit
  (db.roads.filter
      (fun p => roadMatchesMapQuery min_lat max_lat min_lng max_lng p.2)).take limit

/-- `roads.py` `get_roads_geojson` (lines 91-177): the feature list of the
returned FeatureCollection. -/
def get_roads_geojson (db : DB) (min_lat max_lat min_lng max_lng : Option ℚ)
    (limit : Nat) : List GeoJSONFeature :=
  (mapQuerySelect db min_lat max_lat min_lng max_lng limit).map
    (fun p => roadToFeature p.1 p.2)

/-- An element of an Overpass `out geom` result as consumed by
`import_indian_roads.py`: the way id, its tag map, and the node list as
`(lon, lat)` pairs. -/
structure OsmElement where
  id : Nat
  tags : List (String × String)
  geometry : List (ℚ × ℚ)
deriving DecidableEq

/-- Python `a or b` over optional strings as used on `tags.get(...)`
chains: falls through on `None` and on the empty string. -/
def pyOrStr (a b : Option String) : Option String :=
  match a with
  | some s => if s == "" then b else some s
  | none => b

/-- `import_indian_roads.py` `RoadImporter.convert_to_road_document`
(lines 119-188): build the auto-approved road document for an OSM element;
returns `none` when the element has no geometry nodes. Display name
prefers `name`, then `ref`, then `alt_name`, then a placeholder; the
anchor point is the first geometry node; `approved` is hard-coded `True`
(trusted bulk-import path). The `import_date` extra field stores the
current instant. -/
def convert_to_road_document (el : OsmElement) (now : Nat) : Option Road :=
  let road_name :=
    (pyOrStr (el.tags.lookup "name")
      (pyOrStr (el.tags.lookup "ref") (el.tags.lookup "alt_name"))).getD
      ("Unnamed Road (OSM " ++ toString el.id ++ ")")
  match el.geometry with
  | [] => none
  | center :: _rest =>
    let highway_type := (el.tags.lookup "highway").getD "unknown"
    let surface := (el.tags.lookup "surface").getD "Unknown"
    let lanes := (el.tags.lookup "lanes").getD "Unknown"
    some
      { road_name := road_name,
        location := center,
        contractor := "To be updated",
        approved_by := "To be updated",
        total_cost := "To be updated",
        promised_completion_date := "To be updated",
        actual_completion_date := "To be updated",
        maintenance_firm := "To be updated",
        status := "Type: " ++ highway_type,
        images := [],
        added_by_user := "WhoBuiltMyRoad",
        approved := true,
        extra_fields :=
          [("highway_type", highway_type), ("surface", surface),
           ("lanes", lanes), ("imported_from", "OpenStreetMap"),
           ("import_date", toString now)],
        created_at := now,
        updated_at := now,
        osm_way_id := some (toString el.id),
        geometry := some (.lineString el.geometry),
        has_osm_data := true }

/-- `roads.py` `add_feedback` (lines 273-326): look up the road with
`find_one({"_id": road_id, "approved": True})`; 404 "Road not found" when
that query matches nothing (nonexistent id or unapproved road), else insert
a feedback document. -/
def add_feedback (db : DB) (road_id : Nat) (comment : String) (username : String)
    (now : Nat) : DB × Except HErr Feedback :=
  match db.findApprovedRoad road_id with
  | none => (db, .error (.http 404 "Road not found"))
  | some _road =>
    let fb : Feedback := { road_id := road_id, user := username, comment := comment, date := now }
    ({ db with feedback := db.feedback ++ [fb] }, .ok fb)

/-! ## Concrete fixtures -/

/-- A baseline pending road: point submission at (lng 75, lat 15), no OSM
linkage, no images. -/
def baseRoad : Road :=
  { road_name := "MG Road", location := (75, 15), contractor := "Acme Infra",
    approved_by := "PWD", total_cost := "1 crore",
    promised_completion_date := "2020", actual_completion_date := "2021",
    maintenance_firm := "Acme Infra", status := "completed", images := [],
    added_by_user := "alice", approved := false, extra_fields := [],
    created_at := 0, updated_at := 0, osm_way_id := none, geometry := none,
    has_osm_data := false }

/-- An approved road with no OSM linkage. -/
def roadApproved : Road := { baseRoad with approved := true }

/-- The three-point LineString used by the OSM fixtures. -/
def lsOsm : Geometry := .lineString [(70, 10), (71, 11), (72, 12)]

/-- An approved road linked to OSM way 123 with a three-point LineString. -/
def roadOsm : Road :=
  { baseRoad with
    approved := true,
    osm_way_id := some "123",
    geometry := some lsOsm,
    has_osm_data := true }

/-- An approved road whose point lies at (lng 75, lat 25). -/
def roadLat25 : Road := { baseRoad with approved := true, location := (75, 25) }

/-- A store holding the single approved road `roadApproved` under id 1. -/
def dbOne : DB := { roads := [(1, roadApproved)], feedback := [] }

/-- An update body supplying only a new `road_name`. -/
def u1 : RoadUpdate := { emptyRoadUpdate with road_name := some "Renamed Road" }

/-! ## Claim theorems -/

/-- C1: the claim says every update with a non-empty effective field set
stores `approved=false` on the record. On the shipped code no update ever
stores anything: with an existing, approved record and a body supplying a
recognized field (`road_name`), `update_road` raises
`AttributeError("osm_way_id")` at roads.py line 454 and leaves the store
untouched, so the record stays approved. The intended `$set` document
(`applyUpdateFields`, the translation of the dead lines 427-483) does
force `approved := false`, confirming the claim describes the intent. -/
theorem C1_update_raises_attribute_error :
    dbOne.findRoad 1 = some roadApproved ∧ roadApproved.approved = true ∧
    (update_road dbOne 1 u1 7).2 = .error (.attributeError "osm_way_id") ∧
    (update_road dbOne 1 u1 7).1 = dbOne ∧
    (∀ (road : Road) (uf : UpdateFields) (now : Nat),
       (applyUpdateFields road uf now).approved = false) := by
  exact ⟨by decide, rfl, by decide, by decide, fun road uf now => rfl⟩

/-- C2: the claim says every valid create stores a record with
`approved=false`, the bulk-import path being the only exception with
`approved=true`. On the shipped code `create_road` raises
`AttributeError("geometry")` (roads.py line 345) on every request and
stores nothing; the intended document builder (`createRoadDoc`, dead code)
does set `approved := false`, and the bulk importer's
`convert_to_road_document` does store `approved = true`. -/
theorem C2_create_raises_attribute_error :
    (∀ (db : DB) (rc : RoadCreate) (user : String)
       (fetch : String → Option Geometry) (now : Nat),
       (create_road db rc user fetch now).2 = .error (.attributeError "geometry") ∧
       (create_road db rc user fetch now).1 = db) ∧
    (∀ (rc : RoadCreate) (user : String) (osm_way_id : Option String)
       (geometry : Option Geometry) (has_osm : Bool) (now : Nat),
       (createRoadDoc rc user osm_way_id geometry has_osm now).approved = false) ∧
    (∀ (el : OsmElement) (now : Nat) (doc : Road),
       convert_to_road_document el now = some doc → doc.approved = true) := by
  refine ⟨fun db rc user fetch now => ⟨rfl, rfl⟩,
          fun rc user osm_way_id geometry has_osm now => rfl,
          fun el now doc h => ?_⟩
  rw [convert_to_road_document] at h
  cases hg : el.geometry with
  | nil => rw [hg] at h; exact absurd h (by simp)
  | cons c rest => rw [hg] at h; cases h; rfl

/-- An Overpass element fixture used to exercise the bulk-import path. -/
def elW : OsmElement :=
  { id := 42, tags := [("name", "NH 44"), ("highway", "trunk")],
    geometry := [(77, 13), (77, 14)] }

/-- The document the bulk importer builds for `elW` at instant 3. -/
def docW42 : Road := (convert_to_road_document elW 3).getD baseRoad

/-- Witness for C2: the bulk-import conversion hypothesis is satisfiable at
the concrete element `elW`. -/
theorem C2_create_raises_attribute_error_witness :
    convert_to_road_document elW 3 = some docW42 ∧ docW42.approved = true :=
  ⟨by decide, C2_create_raises_attribute_error.2.2 elW 3 docW42 (by decide)⟩

/-- C3: approving an already-approved record returns the conflict error
(HTTP 400 "Road is already approved", the spec's ConflictError class),
raised at admin.py line 104 before any write, so the store — and with it
every field of the record, `updated_at` included — is unchanged. -/
theorem C3_double_approve_conflict (db : DB) (road_id now : Nat) (road : Road)
    (hfind : db.findRoad road_id = some road) (happ : road.approved = true) :
    (approve_road db road_id now).2 = .error (.http 400 "Road is already approved") ∧
    (approve_road db road_id now).1 = db := by
  simp [approve_road, hfind, happ]

/-- Witness for C3 at the concrete store `dbOne`. -/
theorem C3_double_approve_conflict_witness :
    dbOne.findRoad 1 = some roadApproved ∧ roadApproved.approved = true ∧
    ((approve_road dbOne 1 5).2 = .error (.http 400 "Road is already approved") ∧
     (approve_road dbOne 1 5).1 = dbOne) :=
  ⟨by decide, by decide, C3_double_approve_conflict dbOne 1 5 roadApproved (by decide) (by decide)⟩

/-- The fetched LineString for OSM way 123 in the C4 fixture. -/
def fetchFound : String → Option Geometry :=
  fun wid => if wid == "123" then some lsOsm else none

/-- C4: the claim says a create with `osm_way_id=X` and no geometry stores
the fetched LineString (`has_osm_data=true`) when the collaborator finds X
and degrades to `has_osm_data=false`, geometry null, still succeeding, when
it does not. On the shipped code the request body's `osm_way_id` is dropped
by `RoadCreate` validation (`extra="ignore"`) and `create_road` raises
`AttributeError("geometry")` before the reconciliation block, storing
nothing. The translation of that (dead) block, `reconcileOsm`, does behave
exactly as the claim describes. -/
theorem C4_create_osm_reconciliation_dead :
    (∀ (db : DB) (rc : RoadCreate) (user : String)
       (fetch : String → Option Geometry) (now : Nat),
       (create_road db rc user fetch now).2 = .error (.attributeError "geometry")) ∧
    reconcileOsm (some "123") none fetchFound = (some lsOsm, true) ∧
    reconcileOsm (some "123") none (fun _ => none) = (none, false) ∧
    reconcileOsm (some "123") (some lsOsm) (fun _ => none) = (some lsOsm, true) ∧
    reconcileOsm none (some lsOsm) (fun _ => none) = (some lsOsm, false) ∧
    reconcileOsm none none (fun _ => none) = (none, false) := by
  exact ⟨fun db rc user fetch now => rfl, by decide, rfl, rfl, rfl, rfl⟩

/-- C9: approve, reject and update on a nonexistent id each return the 404
not-found error, as the claim says. The fourth conjunct of the claim fails
on the shipped code: an update of an existing record with an empty body
does not reach the "No fields to update" validation check (roads.py
line 470) because line 454 raises `AttributeError("osm_way_id")` first;
the call errors without modifying the store. -/
theorem C9_not_found_and_empty_update :
    (approve_road dbOne 99 5).2 = .error (.http 404 "Road not found") ∧
    (reject_road dbOne 99 (fun _ => false)).2 = .error (.http 404 "Road not found") ∧
    (update_road dbOne 99 emptyRoadUpdate 5).2 = .error (.http 404 "Road not found") ∧
    (update_road dbOne 1 emptyRoadUpdate 5).2 = .error (.attributeError "osm_way_id") ∧
    (update_road dbOne 1 emptyRoadUpdate 5).2 ≠ .error (.http 400 "No fields to update") ∧
    (update_road dbOne 1 emptyRoadUpdate 5).1 = dbOne := by
  refine ⟨by decide, by decide, by decide, by decide, ?_, by decide⟩
  decide

/-- A store with one road inside the test box and one outside it. -/
def dbW5 : DB := { roads := [(1, roadApproved), (2, roadLat25)], feedback := [] }

/-- A store holding only the approved road at (lng 75, lat 25). -/
def dbC5 : DB := { roads := [(1, roadLat25)], feedback := [] }

/-- C5 counterexample: with all four bounds present but `min_lat = 0`, the
claim says the box filter applies and the approved road at
(lat 25, lng 75) — outside the box [0,20]×[70,80] — is excluded. On the
code, `all([min_lat, max_lat, min_lng, max_lng])` treats the float `0.0`
as falsy, no spatial filter is attached, and the out-of-box road is
returned. -/
theorem C5_zero_bound_disables_filter :
    (some (0 : ℚ)).isSome = true ∧ (some (20 : ℚ)).isSome = true ∧
    (some (70 : ℚ)).isSome = true ∧ (some (80 : ℚ)).isSome = true ∧
    inBox 70 0 80 20 roadLat25.location = false ∧
    roadLat25.approved = true ∧
    mapQuerySelect dbC5 (some 0) (some 20) (some 70) (some 80) 1000 =
      [(1, roadLat25)] := by
  decide

/-- C5 amended: when all four bounds are present **and non-zero** (Python
truthiness of the `all([...])` check at roads.py line 122), the map query
selects exactly the approved roads whose point lies in the box; when any
bound is absent **or equal to zero**, no spatial filter is applied and
exactly the approved roads are selected — in both cases subject to the
result cap (hypothesis: the matching set fits under the capped limit). -/
theorem C5_map_query_bounds_amended (db : DB)
    (min_lat max_lat min_lng max_lng : Option ℚ) (limit : Nat)
    (hcap : (db.roads.filter
        (fun p => roadMatchesMapQuery min_lat max_lat min_lng max_lng p.2)).length ≤
      (if 5000 < limit then 5000 else limit)) :
    (boundsTruthy min_lat max_lat min_lng max_lng = true →
      ∀ p : Nat × Road,
        p ∈ mapQuerySelect db min_lat max_lat min_lng max_lng limit ↔
          p ∈ db.roads ∧ p.2.approved = true ∧
          inBox (min_lng.getD 0) (min_lat.getD 0) (max_lng.getD 0) (max_lat.getD 0)
            p.2.location = true) ∧
    (boundsTruthy min_lat max_lat min_lng max_lng = false →
      ∀ p : Nat × Road,
        p ∈ mapQuerySelect db min_lat max_lat min_lng max_lng limit ↔
          p ∈ db.roads ∧ p.2.approved = true) := by
  have hsel : mapQuerySelect db min_lat max_lat min_lng max_lng limit =
      db.roads.filter
        (fun p => roadMatchesMapQuery min_lat max_lat min_lng max_lng p.2) := by
    simp only [mapQuerySelect]
    exact List.take_of_length_le hcap
  constructor
  · intro ht p
    rw [hsel]
    simp [List.mem_filter, roadMatchesMapQuery, ht, Bool.and_eq_true, and_assoc]
  · intro hf p
    rw [hsel]
    simp [List.mem_filter, roadMatchesMapQuery, hf, Bool.and_eq_true]

/-- Witness for C5 (amended): with non-zero bounds (10,20,70,80) the road
at (lng 75, lat 15) is selected exactly when approved and inside the
box. -/
theorem C5_map_query_bounds_amended_witness :
    ((dbW5.roads.filter
        (fun p => roadMatchesMapQuery (some 10) (some 20) (some 70) (some 80) p.2)).length ≤
      (if 5000 < 1000 then 5000 else 1000)) ∧
    boundsTruthy (some 10) (some 20) (some 70) (some 80) = true ∧
    ((1, roadApproved) ∈ mapQuerySelect dbW5 (some 10) (some 20) (some 70) (some 80) 1000 ↔
      (1, roadApproved) ∈ dbW5.roads ∧ roadApproved.approved = true ∧
      inBox 70 10 80 20 roadApproved.location = true) :=
  ⟨by decide, by decide,
   (C5_map_query_bounds_amended dbW5 (some 10) (some 20) (some 70) (some 80) 1000
      (by decide)).1 (by decide) (1, roadApproved)⟩

/-- C6 counterexample: for the approved road `roadOsm` (`has_osm_data`,
three-point LineString), the emitted feature's geometry is the LineString
and its properties dict has no location key (see `GeoJSONFeature`), so the
feature does not carry the road's point location — the claim says it
always does. -/
theorem C6_line_feature_drops_location :
    roadOsm.has_osm_data = true ∧
    roadOsm.geometry = some (.lineString [(70, 10), (71, 11), (72, 12)]) ∧
    ¬ featureCarriesPointLocation (roadToFeature 7 roadOsm) roadOsm.location := by
  refine ⟨rfl, rfl, fun h => ?_⟩
  have h2 : (roadToFeature 7 roadOsm).geometry = Geometry.point roadOsm.location := h
  exact absurd h2 (by decide)

/-- C6 amended: every emitted feature carries the descriptive properties
(id, name, contractor, status, cost, `has_osm_data`, `osm_way_id`)
regardless of which geometry type is emitted, but not the point location:
when a LineString geometry is emitted the feature does not carry the
road's point location (the properties dict has no location key, and the
geometry slot holds the line). -/
theorem C6_feature_properties_amended (road_id : Nat) (road : Road) :
    ((roadToFeature road_id road).props_id = road_id ∧
     (roadToFeature road_id road).props_road_name = road.road_name ∧
     (roadToFeature road_id road).props_contractor = road.contractor ∧
     (roadToFeature road_id road).props_status = road.status ∧
     (roadToFeature road_id road).props_total_cost = road.total_cost ∧
     (roadToFeature road_id road).props_has_osm_data =
       (road.has_osm_data && road.geometry.isSome) ∧
     (roadToFeature road_id road).props_osm_way_id = road.osm_way_id) ∧
    (∀ coords, road.has_osm_data = true →
       road.geometry = some (.lineString coords) →
       (roadToFeature road_id road).geometry = .lineString coords ∧
       ¬ featureCarriesPointLocation (roadToFeature road_id road) road.location) := by
  refine ⟨⟨rfl, rfl, rfl, rfl, rfl, rfl, rfl⟩, ?_⟩
  intro coords h1 h2
  have hg : (roadToFeature road_id road).geometry = .lineString coords := by
    simp [roadToFeature, h1, h2]
  refine ⟨hg, fun h => ?_⟩
  have h3 : (roadToFeature road_id road).geometry = Geometry.point road.location := h
  rw [hg] at h3
  exact Geometry.noConfusion h3

/-- Witness for C6 (amended) at the concrete OSM-linked road. -/
theorem C6_feature_properties_amended_witness :
    roadOsm.has_osm_data = true ∧
    roadOsm.geometry = some (.lineString [(70, 10), (71, 11), (72, 12)]) ∧
    ((roadToFeature 9 roadOsm).geometry = .lineString [(70, 10), (71, 11), (72, 12)] ∧
     ¬ featureCarriesPointLocation (roadToFeature 9 roadOsm) roadOsm.location) :=
  ⟨rfl, rfl,
   (C6_feature_properties_amended 9 roadOsm).2 [(70, 10), (71, 11), (72, 12)] rfl rfl⟩

/-- C7: per-feature geometry selection — a road with `has_osm_data` and a
stored geometry emits that stored geometry; a road with
`has_osm_data=false` or no stored geometry emits a Point equal to its
location. The map endpoint's feature list is exactly the per-road
rendering of the selected documents. -/
theorem C7_geometry_selection (road_id : Nat) (road : Road) :
    (∀ g, road.has_osm_data = true → road.geometry = some g →
       (roadToFeature road_id road).geometry = g) ∧
    (road.has_osm_data = false ∨ road.geometry = none →
       (roadToFeature road_id road).geometry = .point road.location) ∧
    (∀ (db : DB) (min_lat max_lat min_lng max_lng : Option ℚ) (limit : Nat),
       get_roads_geojson db min_lat max_lat min_lng max_lng limit =
         (mapQuerySelect db min_lat max_lat min_lng max_lng limit).map
           (fun p => roadToFeature p.1 p.2)) := by
  refine ⟨?_, ?_, fun db a b c d l => rfl⟩
  · intro g h1 h2
    simp [roadToFeature, h1, h2]
  · rintro (h | h) <;> simp [roadToFeature, h]

/-- Witness for C7: the OSM road emits its three-point LineString, the
plain road emits the Point at its location. -/
theorem C7_geometry_selection_witness :
    roadOsm.has_osm_data = true ∧ roadOsm.geometry = some lsOsm ∧
    (roadToFeature 3 roadOsm).geometry = lsOsm ∧
    baseRoad.has_osm_data = false ∧
    (roadToFeature 4 baseRoad).geometry = .point baseRoad.location :=
  ⟨rfl, rfl, (C7_geometry_selection 3 roadOsm).1 lsOsm rfl rfl, rfl,
   (C7_geometry_selection 4 baseRoad).2.1 (Or.inl rfl)⟩

/-- C8: rejecting an existing road succeeds regardless of per-image
deletion failures: the result is a success carrying exactly the images
whose deletion succeeded, the road document is gone, every feedback row
referencing the road is gone, and every image whose deletion did not fail
was deleted. -/
theorem C8_reject_cascades (db : DB) (road_id : Nat)
    (deleteFails : String → Bool) (road : Road)
    (hfind : db.findRoad road_id = some road) :
    (reject_road db road_id deleteFails).2 =
      .ok (road.images.filter (fun url => !deleteFails url)) ∧
    ((reject_road db road_id deleteFails).1).findRoad road_id = none ∧
    (∀ f ∈ (reject_road db road_id deleteFails).1.feedback, f.road_id ≠ road_id) ∧
    (∀ url ∈ road.images, deleteFails url = false →
       url ∈ road.images.filter (fun u => !deleteFails u)) := by
  have hr : reject_road db road_id deleteFails =
      ({ roads := db.roads.filter (fun p => !(p.1 == road_id)),
         feedback := db.feedback.filter (fun f => !(f.road_id == road_id)) },
       .ok (road.images.filter (fun url => !deleteFails url))) := by
    unfold reject_road
    rw [hfind]
  refine ⟨by rw [hr], ?_, ?_, ?_⟩
  · rw [hr]
    have hfil : (db.roads.filter (fun p => !(p.1 == road_id))).find?
        (fun p => p.1 == road_id) = none := by
      rw [List.find?_eq_none]
      intro p hp
      have h2 := (List.mem_filter.mp hp).2
      simpa using h2
    simp [DB.findRoad, hfil]
  · rw [hr]
    intro f hf
    have h2 := (List.mem_filter.mp hf).2
    simpa using h2
  · intro url hu hfail
    exact List.mem_filter.mpr ⟨hu, by simp [hfail]⟩

/-- An approved road with two images. -/
def roadTwoImages : Road :=
  { baseRoad with approved := true, images := ["imgA", "imgB"] }

/-- Feedback fixtures referencing roads 1 and 2. -/
def fb1 : Feedback := { road_id := 1, user := "bob", comment := "nice", date := 2 }

/-- Feedback referencing road 2, untouched by rejecting road 1. -/
def fb2 : Feedback := { road_id := 2, user := "carol", comment := "meh", date := 3 }

/-- Store for the rejection fixture. -/
def dbC8 : DB := { roads := [(1, roadTwoImages), (2, roadApproved)], feedback := [fb1, fb2] }

/-- Image-deletion collaborator that fails exactly on "imgB". -/
def failsB : String → Bool := fun url => url == "imgB"

/-- Witness for C8: rejecting road 1 with one of two image deletions
failing. -/
theorem C8_reject_cascades_witness :
    dbC8.findRoad 1 = some roadTwoImages ∧
    ((reject_road dbC8 1 failsB).2 =
       .ok (roadTwoImages.images.filter (fun url => !failsB url)) ∧
     ((reject_road dbC8 1 failsB).1).findRoad 1 = none ∧
     (∀ f ∈ (reject_road dbC8 1 failsB).1.feedback, f.road_id ≠ 1) ∧
     (∀ url ∈ roadTwoImages.images, failsB url = false →
        url ∈ roadTwoImages.images.filter (fun u => !failsB u))) :=
  ⟨by decide, C8_reject_cascades dbC8 1 failsB roadTwoImages (by decide)⟩

/-- C10: feedback creation against an existing but unapproved road returns
the same 404 not-found error as against a nonexistent id, and leaves the
store unchanged; the `find_one({"_id": id, "approved": True})` lookup makes
feedback creatable only against approved roads. -/
theorem C10_feedback_on_pending_road (db : DB) (road_id : Nat) (road : Road)
    (comment username : String) (now : Nat)
    (_hmem : (road_id, road) ∈ db.roads)
    (huniq : ∀ p ∈ db.roads, p.1 = road_id → p.2 = road)
    (hpend : road.approved = false) :
    (add_feedback db road_id comment username now).2 =
      .error (.http 404 "Road not found") ∧
    (add_feedback db road_id comment username now).1 = db ∧
    (∀ road_id2 : Nat, (∀ p ∈ db.roads, p.1 ≠ road_id2) →
       (add_feedback db road_id2 comment username now).2 =
         .error (.http 404 "Road not found")) := by
  have hnone : db.roads.find? (fun p => p.1 == road_id && p.2.approved) = none := by
    rw [List.find?_eq_none]
    intro p hp hcontra
    have hsplit := (Bool.and_eq_true _ _).mp hcontra
    have h1 : p.1 = road_id := eq_of_beq hsplit.1
    have h2 : p.2.approved = true := hsplit.2
    rw [huniq p hp h1, hpend] at h2
    exact Bool.false_ne_true h2
  refine ⟨?_, ?_, ?_⟩
  · simp [add_feedback, DB.findApprovedRoad, hnone]
  · simp [add_feedback, DB.findApprovedRoad, hnone]
  · intro road_id2 hno
    have hnone2 : db.roads.find? (fun p => p.1 == road_id2 && p.2.approved) = none := by
      rw [List.find?_eq_none]
      intro p hp hcontra
      exact hno p hp (eq_of_beq ((Bool.and_eq_true _ _).mp hcontra).1)
    simp [add_feedback, DB.findApprovedRoad, hnone2]

/-- Store holding only the pending road `baseRoad` under id 1. -/
def dbPending : DB := { roads := [(1, baseRoad)], feedback := [] }

/-- Witness for C10 at the concrete pending road. -/
theorem C10_feedback_on_pending_road_witness :
    (1, baseRoad) ∈ dbPending.roads ∧ baseRoad.approved = false ∧
    ((add_feedback dbPending 1 "bad road" "bob" 4).2 =
       .error (.http 404 "Road not found") ∧
     (add_feedback dbPending 1 "bad road" "bob" 4).1 = dbPending ∧
     (∀ road_id2 : Nat, (∀ p ∈ dbPending.roads, p.1 ≠ road_id2) →
        (add_feedback dbPending road_id2 "bad road" "bob" 4).2 =
          .error (.http 404 "Road not found"))) :=
  ⟨by decide, rfl,
   C10_feedback_on_pending_road dbPending 1 baseRoad "bad road" "bob" 4
     (by decide) (by decide) rfl⟩
